import Mathlib

/-!
Shallow embedding of the OMOP Healthcare Assistant chat page
(`src/app/page.tsx`, manual-credential variant; the hosted-auth variant in
the unnamed source file shares the same `handleSubmit` logic, with the
credential fetch happening inside the same try block and therefore covered
by the `transport error` case below).

The component state is the five `useState` hooks: `input`, `messages`,
`isLoading`, `isSignedIn`, `credentials`.  The submit handler invokes the
external function `IST2SQL` with payload `JSON.stringify({question: input})`,
decodes `response.Payload` as text, runs `JSON.parse` on it, reads the
`body` property of the result, runs `JSON.parse` again on that value, and
appends two tagged bot messages built from `data.sql_query` and
`data.summary`; any exception thrown inside the try block is caught and a
single fixed apology message is appended; the loading flag is cleared in
the `finally` clause.

JavaScript runtime details embedded here because the handler depends on
them: `JSON.parse` on a non-string coerces its argument with `String()`;
property access on `null` throws a TypeError while property access on any
other non-object value yields `undefined`; a missing object field also
yields `undefined` (and does not throw).  `undefined` is modelled as
`Option.none`, so a message's `text` field is an `Option Json` — the JS
value actually stored, which is a string on every path the component's own
code constructs but may be `undefined` or a non-string when the backend's
reply omits or mistypes a field.
-/

namespace OmopChat

/-- A JSON value as produced by `JSON.parse`.  Numbers keep their source
lexeme: the component never computes with numbers, it only passes them
through `String()` coercion, and for the integer literals relevant here the
lexeme equals the JS number-to-string rendering. -/
inductive Json where
  | null
  | bool (b : Bool)
  | num (lexeme : String)
  | str (s : String)
  | arr (elems : List Json)
  | obj (fields : List (String × Json))

/-- JSON insignificant whitespace (RFC 8259: space, tab, LF, CR). -/
def jsonWsChar (c : Char) : Bool :=
  c == ' ' || c == '\t' || c == '\n' || c == '\r'

def skipWs : List Char → List Char
  | [] => []
  | c :: cs => if jsonWsChar c then skipWs cs else c :: cs

def hexVal (c : Char) : Option Nat :=
  if '0' ≤ c ∧ c ≤ '9' then some (c.toNat - '0'.toNat)
  else if 'a' ≤ c ∧ c ≤ 'f' then some (c.toNat - 'a'.toNat + 10)
  else if 'A' ≤ c ∧ c ≤ 'F' then some (c.toNat - 'A'.toNat + 10)
  else none

/-- Body of a JSON string literal, after the opening quote: returns the
decoded string and the input following the closing quote. -/
def parseJstring (acc : List Char) : List Char → Option (String × List Char)
  | [] => none
  | c :: cs =>
    if c == '"' then some (String.mk acc.reverse, cs)
    else if c == '\\' then
      match cs with
      | '"' :: rest => parseJstring ('"' :: acc) rest
      | '\\' :: rest => parseJstring ('\\' :: acc) rest
      | '/' :: rest => parseJstring ('/' :: acc) rest
      | 'b' :: rest => parseJstring (Char.ofNat 8 :: acc) rest
      | 'f' :: rest => parseJstring (Char.ofNat 12 :: acc) rest
      | 'n' :: rest => parseJstring ('\n' :: acc) rest
      | 'r' :: rest => parseJstring ('\r' :: acc) rest
      | 't' :: rest => parseJstring ('\t' :: acc) rest
      | 'u' :: h1 :: h2 :: h3 :: h4 :: rest =>
        match hexVal h1, hexVal h2, hexVal h3, hexVal h4 with
        | some a, some b, some c2, some d =>
          parseJstring (Char.ofNat (((a * 16 + b) * 16 + c2) * 16 + d) :: acc) rest
        | _, _, _, _ => none
      | _ => none
    else if c.toNat < 0x20 then none
    else parseJstring (c :: acc) cs

def takeDigits : List Char → List Char × List Char
  | [] => ([], [])
  | c :: cs =>
    if c.isDigit then
      let r := takeDigits cs
      (c :: r.1, r.2)
    else ([], c :: cs)

/-- Integer part of a JSON number (after the optional sign). -/
def parseIntPart : List Char → Option (List Char × List Char)
  | [] => none
  | c :: cs =>
    if c == '0' then some (['0'], cs)
    else if c.isDigit then
      let r := takeDigits cs
      some (c :: r.1, r.2)
    else none

def parseFracPart : List Char → Option (List Char × List Char)
  | '.' :: cs =>
    match takeDigits cs with
    | ([], _) => none
    | (ds, r) => some ('.' :: ds, r)
  | cs => some ([], cs)

def parseExpPart : List Char → Option (List Char × List Char)
  | [] => some ([], [])
  | c :: cs =>
    if c == 'e' || c == 'E' then
      let sgn : List Char × List Char :=
        match cs with
        | s :: rest => if s == '+' || s == '-' then ([s], rest) else ([], s :: rest)
        | [] => ([], [])
      match takeDigits sgn.2 with
      | ([], _) => none
      | (ds, r) => some (c :: (sgn.1 ++ ds), r)
    else some ([], c :: cs)

/-- A JSON number lexeme: `-?int frac? exp?`. -/
def parseNumber (cs : List Char) : Option (String × List Char) :=
  let signed : List Char × List Char :=
    match cs with
    | '-' :: rest => (['-'], rest)
    | _ => ([], cs)
  match parseIntPart signed.2 with
  | none => none
  | some (ip, r1) =>
    match parseFracPart r1 with
    | none => none
    | some (fp, r2) =>
      match parseExpPart r2 with
      | none => none
      | some (ep, r3) => some (String.mk (signed.1 ++ ip ++ fp ++ ep), r3)

/-- Parser mode: a plain value, the remaining elements of an array whose
opening bracket has been consumed, or the remaining members of an object
whose opening brace has been consumed. -/
inductive PMode where
  | value
  | elems (acc : List Json)
  | membs (acc : List (String × Json))

/-- Recursive-descent JSON value parser, fuel-indexed so that it is
structurally recursive (and hence kernel-evaluable). -/
def parseJ : Nat → PMode → List Char → Option (Json × List Char)
  | 0, _, _ => none
  | fuel + 1, .value, cs =>
    match skipWs cs with
    | 'n' :: 'u' :: 'l' :: 'l' :: rest => some (.null, rest)
    | 't' :: 'r' :: 'u' :: 'e' :: rest => some (.bool true, rest)
    | 'f' :: 'a' :: 'l' :: 's' :: 'e' :: rest => some (.bool false, rest)
    | '"' :: rest =>
      match parseJstring [] rest with
      | none => none
      | some (s, r) => some (.str s, r)
    | '[' :: rest =>
      match skipWs rest with
      | ']' :: r2 => some (.arr [], r2)
      | cs2 => parseJ fuel (.elems []) cs2
    | '{' :: rest =>
      match skipWs rest with
      | '}' :: r2 => some (.obj [], r2)
      | cs2 => parseJ fuel (.membs []) cs2
    | cs1 =>
      match parseNumber cs1 with
      | none => none
      | some (lx, r) => some (.num lx, r)
  | fuel + 1, .elems acc, cs =>
    match parseJ fuel .value cs with
    | none => none
    | some (v, rest) =>
      match skipWs rest with
      | ',' :: r2 => parseJ fuel (.elems (acc ++ [v])) r2
      | ']' :: r2 => some (.arr (acc ++ [v]), r2)
      | _ => none
  | fuel + 1, .membs acc, cs =>
    match skipWs cs with
    | '"' :: rest =>
      match parseJstring [] rest with
      | none => none
      | some (k, r1) =>
        match skipWs r1 with
        | ':' :: r2 =>
          match parseJ fuel .value r2 with
          | none => none
          | some (v, r3) =>
            match skipWs r3 with
            | ',' :: r4 => parseJ fuel (.membs (acc ++ [(k, v)])) r4
            | '}' :: r4 => some (.obj (acc ++ [(k, v)]), r4)
            | _ => none
        | _ => none
    | _ => none

/-- `JSON.parse` on a string: parse one value, demand only whitespace
after it, throw (`Except.error`) otherwise.  The fuel `2 * length + 4`
suffices because each fuel-consuming step either consumes an input
character or is the single no-consumption handoff from a bracket to its
element/member loop. -/
def jsonParse (s : String) : Except Unit Json :=
  match parseJ (2 * s.length + 4) .value s.data with
  | some (v, rest) => if (skipWs rest).isEmpty then .ok v else .error ()
  | none => .error ()

/-- Field lookup in a parsed JS object.  `JSON.parse` assigns duplicate
keys in order, so the last binding wins. -/
def jsObjLookup : List (String × Json) → String → Option Json
  | [], _ => none
  | (k, v) :: rest, key =>
    match jsObjLookup rest key with
    | some v2 => some v2
    | none => if k == key then some v else none

/-- JS property access `x.key` for the keys used by the component:
a TypeError (`Except.error`) on `null`; the field (or `undefined`, i.e.
`none`) on an object; `undefined` on every other value, since `body`,
`sql_query` and `summary` exist on no primitive or array. -/
def jsGetProp : Json → String → Except Unit (Option Json)
  | .null, _ => .error ()
  | .obj fields, key => .ok (jsObjLookup fields key)
  | _, _ => .ok none

/-- JS `String()` coercion of a parsed value, fuel-indexed for the
array-join recursion (`String([x]) = [x].join(",")`, where `null` joins as
the empty string).  Any value parsed from a payload of length `n` nests
fewer than `n + 1` levels deep, so the fuel the pipeline passes is never
exhausted. -/
def jsToStringF : Nat → Json → String
  | _, .null => "null"
  | _, .bool true => "true"
  | _, .bool false => "false"
  | _, .num lx => lx
  | _, .str s => s
  | 0, .arr _ => ""
  | fuel + 1, .arr elems =>
    String.intercalate "," (elems.map fun e =>
      match e with
      | .null => ""
      | e => jsToStringF fuel e)
  | _, .obj _ => "[object Object]"

/-- JS `String()` coercion of a possibly-`undefined` value, as applied by
`JSON.parse` to its argument: `String(undefined) = "undefined"`. -/
def jsToStringOpt (fuel : Nat) : Option Json → String
  | none => "undefined"
  | some j => jsToStringF fuel j

/-! ## Data model (`interface Message` and the `useState` hooks) -/

inductive Sender where
  | user
  | bot
deriving DecidableEq, Repr

inductive MsgType where
  | sql
  | summary
deriving DecidableEq, Repr

/-- `interface Message { text: string; sender: 'user' | 'bot'; type?: 'sql' | 'summary' }`.
`text` holds the JS value actually assigned at runtime (`Option Json`,
`none` = `undefined`): the TS annotation says `string`, but the handler
assigns `data.sql_query` / `data.summary` unchecked. -/
structure Message where
  text : Option Json
  sender : Sender
  type : Option MsgType

structure Credentials where
  accessKey : String
  secretKey : String
deriving DecidableEq, Repr

/-- The five `useState` hooks of the `Home` component. -/
structure AppState where
  input : String
  messages : List Message
  isLoading : Bool
  isSignedIn : Bool
  credentials : Credentials

def greetingText : String :=
  "Hello! I\x27m your OMOP Healthcare Assistant. Ask me about patients, procedures, medications, or any healthcare data."

def greetingMessage : Message :=
  { text := some (.str greetingText), sender := .bot, type := none }

def errorMessage : Message :=
  { text := some (.str "Sorry, I encountered an error processing your request."), sender := .bot, type := none }

def userMessage (q : String) : Message :=
  { text := some (.str q), sender := .user, type := none }

/-- The `useState` initialisers: empty input, seeded greeting, not loading,
signed out, empty credential fields. -/
def initState : AppState :=
  { input := ""
    messages := [greetingMessage]
    isLoading := false
    isSignedIn := false
    credentials := { accessKey := "", secretKey := "" } }

/-! ## Controlled-input setters (the `onChange` handlers) -/

def setInput (s : AppState) (v : String) : AppState := { s with input := v }

def setAccessKey (s : AppState) (v : String) : AppState :=
  { s with credentials := { s.credentials with accessKey := v } }

def setSecretKey (s : AppState) (v : String) : AppState :=
  { s with credentials := { s.credentials with secretKey := v } }

/-! ## Sign-in / sign-out handlers -/

/-- `handleSignIn`: `if (credentials.accessKey && credentials.secretKey) setIsSignedIn(true)` —
JS truthiness of a string is non-emptiness. -/
def handleSignIn (s : AppState) : AppState :=
  if s.credentials.accessKey ≠ "" ∧ s.credentials.secretKey ≠ "" then
    { s with isSignedIn := true }
  else s

/-- `handleSignOut`: clear the signed-in flag, blank both credential
fields, reset the transcript to the seeded greeting.  (`input` and
`isLoading` are not touched by this handler.) -/
def handleSignOut (s : AppState) : AppState :=
  { s with
    isSignedIn := false
    credentials := { accessKey := "", secretKey := "" }
    messages := [greetingMessage] }

/-! ## The submit handler -/

/-- The whitespace class of JS `String.prototype.trim` (WhiteSpace ∪
LineTerminator: tab, LF, VT, FF, CR, space, NBSP, BOM, the Zs category,
LS, PS). -/
def isJsWhitespace (c : Char) : Bool :=
  c == ' ' || c == '\t' || c == '\n' || c == '\r' ||
  c.toNat == 0x0B || c.toNat == 0x0C || c.toNat == 0xA0 || c.toNat == 0xFEFF ||
  c.toNat == 0x1680 || (0x2000 ≤ c.toNat && c.toNat ≤ 0x200A) ||
  c.toNat == 0x2028 || c.toNat == 0x2029 || c.toNat == 0x202F ||
  c.toNat == 0x205F || c.toNat == 0x3000

/-- JS `input.trim()`. -/
def jsTrim (s : String) : String :=
  String.mk (((s.data.dropWhile isJsWhitespace).reverse.dropWhile isJsWhitespace).reverse)

/-- The `InvokeCommand` the handler constructs. -/
structure InvokeCommand where
  functionName : String
  payload : String
deriving DecidableEq, Repr

def jsonEscapeChar (c : Char) : String :=
  if c == '"' then "\\\""
  else if c == '\\' then "\\\\"
  else if c.toNat == 8 then "\\b"
  else if c.toNat == 12 then "\\f"
  else if c == '\n' then "\\n"
  else if c == '\r' then "\\r"
  else if c == '\t' then "\\t"
  else if c.toNat < 0x20 then
    "\\u00" ++ String.mk [(Nat.digitChar (c.toNat / 16)), (Nat.digitChar (c.toNat % 16))]
  else String.singleton c

/-- `JSON.stringify` of a string. -/
def jsonQuote (s : String) : String :=
  "\"" ++ String.join (s.data.map jsonEscapeChar) ++ "\""

/-- `JSON.stringify({ question: input })`. -/
def serializeQuestion (q : String) : String :=
  "\x7b\"question\":" ++ jsonQuote q ++ "\x7d"

/-- The request the submit handler issues: `none` when the trim guard
returns early, otherwise the invoke command for `IST2SQL` with the
serialized question. -/
def submitRequest (s : AppState) : Option InvokeCommand :=
  if jsTrim s.input = "" then none
  else some { functionName := "IST2SQL", payload := serializeQuestion s.input }

/-- The environment's answer to `lambdaClient.send`: a thrown transport /
credential error, or a resolved response whose `Payload` decodes (via
`TextDecoder`) to the given string. -/
def Transport : Type := Except Unit String

/-- The try block of `handleSubmit`, step by step, acting on the message
list: each `Except.error` is an exception propagating to the catch clause.
Returns the messages appended so far and whether an exception was thrown.
The steps, in source order: await `send`; `JSON.parse(decodedPayload)`;
read `.body`; `JSON.parse(parsedResponse.body)` (the argument coerced to a
string); read `.sql_query`; append the sql message; read `.summary`;
append the summary message. -/
def runTryBlock (msgs : List Message) (t : Transport) : List Message × Bool :=
  match t with
  | .error _ => (msgs, true)
  | .ok payload =>
    match jsonParse payload with
    | .error _ => (msgs, true)
    | .ok parsedResponse =>
      match jsGetProp parsedResponse "body" with
      | .error _ => (msgs, true)
      | .ok bodyVal =>
        match jsonParse (jsToStringOpt (payload.length + 1) bodyVal) with
        | .error _ => (msgs, true)
        | .ok data =>
          match jsGetProp data "sql_query" with
          | .error _ => (msgs, true)
          | .ok sq =>
            let msgs1 := msgs ++ [{ text := sq, sender := .bot, type := some .sql }]
            match jsGetProp data "summary" with
            | .error _ => (msgs1, true)
            | .ok sm => (msgs1 ++ [{ text := sm, sender := .bot, type := some .summary }], false)

/-- The two-pass response decoding, as one function: outer `JSON.parse` of
the UTF-8-decoded payload, property read of `body`, inner `JSON.parse` of
that value. -/
def decodeResponseBody (payload : String) : Except Unit Json :=
  match jsonParse payload with
  | .error e => .error e
  | .ok parsedResponse =>
    match jsGetProp parsedResponse "body" with
    | .error e => .error e
    | .ok bodyVal => jsonParse (jsToStringOpt (payload.length + 1) bodyVal)

/-- The synchronous prefix of `handleSubmit` past the trim guard: append
the user message, set the loading flag, clear the input field. -/
def submitStart (s : AppState) : AppState :=
  { s with
    messages := s.messages ++ [userMessage s.input]
    isLoading := true
    input := "" }

/-- The rest of `handleSubmit`: run the try block, append the apology on
an exception (catch clause), clear the loading flag (finally clause). -/
def submitFinish (s : AppState) (t : Transport) : AppState :=
  let r := runTryBlock s.messages t
  { s with
    messages := if r.2 then r.1 ++ [errorMessage] else r.1
    isLoading := false }

/-- `handleSubmit`, as a function of the current state and the
environment's transport outcome. -/
def handleSubmit (s : AppState) (t : Transport) : AppState :=
  if jsTrim s.input = "" then s
  else submitFinish (submitStart s) t

/-! ## Reachable session states -/

/-- States reachable from mount through the component's event handlers:
typing in the three controlled inputs, sign-in, sign-out, and submit
against an arbitrary transport outcome. -/
inductive Reachable : AppState → Prop where
  | init : Reachable initState
  | input {s : AppState} (v : String) : Reachable s → Reachable (setInput s v)
  | accessKey {s : AppState} (v : String) : Reachable s → Reachable (setAccessKey s v)
  | secretKey {s : AppState} (v : String) : Reachable s → Reachable (setSecretKey s v)
  | signIn {s : AppState} : Reachable s → Reachable (handleSignIn s)
  | signOut {s : AppState} : Reachable s → Reachable (handleSignOut s)
  | submit {s : AppState} (t : Transport) : Reachable s → Reachable (handleSubmit s t)

/-! ## Helper lemmas -/

theorem jsTrim_of_all_ws (s : String) (h : s.data.all isJsWhitespace = true) :
    jsTrim s = "" := by
  have h1 : s.data.dropWhile isJsWhitespace = [] := by
    rw [List.dropWhile_eq_nil_iff]
    intro x hx
    exact List.all_eq_true.mp h x hx
  simp [jsTrim, h1]

theorem ne_empty_of_trim_ne_empty (s : String) (h : jsTrim s ≠ "") : s ≠ "" := by
  intro he
  exact h (by rw [he]; rfl)

/-- Whatever the transport outcome, the try block only ever appends to the
message list. -/
theorem runTryBlock_append (msgs : List Message) (t : Transport) :
    ∃ rest, (runTryBlock msgs t).1 = msgs ++ rest := by
  cases t with
  | error e => exact ⟨[], by simp [runTryBlock]⟩
  | ok payload =>
    cases hp : jsonParse payload with
    | error e => exact ⟨[], by simp [runTryBlock, hp]⟩
    | ok parsedResponse =>
      cases hb : jsGetProp parsedResponse "body" with
      | error e => exact ⟨[], by simp [runTryBlock, hp, hb]⟩
      | ok bodyVal =>
        cases hd : jsonParse (jsToStringOpt (payload.length + 1) bodyVal) with
        | error e => exact ⟨[], by simp [runTryBlock, hp, hb, hd]⟩
        | ok data =>
          cases hs : jsGetProp data "sql_query" with
          | error e => exact ⟨[], by simp [runTryBlock, hp, hb, hd, hs]⟩
          | ok sq =>
            cases hm : jsGetProp data "summary" with
            | error e =>
              exact ⟨[{ text := sq, sender := .bot, type := some .sql }],
                     by simp [runTryBlock, hp, hb, hd, hs, hm]⟩
            | ok sm =>
              exact ⟨[{ text := sq, sender := .bot, type := some .sql },
                      { text := sm, sender := .bot, type := some .summary }],
                     by simp [runTryBlock, hp, hb, hd, hs, hm]⟩

/-- If the try block throws, it appended nothing: the only step between
the two appends is the `data.summary` property read, which throws only on
`null` — but then the `data.sql_query` read before the first append would
already have thrown. -/
theorem runTryBlock_threw (msgs : List Message) (t : Transport)
    (h : (runTryBlock msgs t).2 = true) : (runTryBlock msgs t).1 = msgs := by
  cases t with
  | error e => rfl
  | ok payload =>
    cases hp : jsonParse payload with
    | error e => simp [runTryBlock, hp]
    | ok parsedResponse =>
      cases hb : jsGetProp parsedResponse "body" with
      | error e => simp [runTryBlock, hp, hb]
      | ok bodyVal =>
        cases hd : jsonParse (jsToStringOpt (payload.length + 1) bodyVal) with
        | error e => simp [runTryBlock, hp, hb, hd]
        | ok data =>
          simp only [runTryBlock, hp, hb, hd] at h ⊢
          cases data <;> simp_all [jsGetProp]

/-- The try block factors through the two-pass decode: it throws exactly
when `decodeResponseBody` does or when the decoded value is `null`, and
otherwise appends the two tagged messages built from the `sql_query` and
`summary` property reads. -/
theorem runTryBlock_via_decode (msgs : List Message) (payload : String) :
    runTryBlock msgs (.ok payload) =
      match decodeResponseBody payload with
      | .error _ => (msgs, true)
      | .ok data =>
        match jsGetProp data "sql_query", jsGetProp data "summary" with
        | .ok sq, .ok sm =>
          (msgs ++ [{ text := sq, sender := .bot, type := some .sql },
                    { text := sm, sender := .bot, type := some .summary }], false)
        | _, _ => (msgs, true) := by
  cases hp : jsonParse payload with
  | error e => simp [runTryBlock, decodeResponseBody, hp]
  | ok parsedResponse =>
    cases hb : jsGetProp parsedResponse "body" with
    | error e => simp [runTryBlock, decodeResponseBody, hp, hb]
    | ok bodyVal =>
      cases hd : jsonParse (jsToStringOpt (payload.length + 1) bodyVal) with
      | error e => simp [runTryBlock, decodeResponseBody, hp, hb, hd]
      | ok data =>
        cases data <;>
          (simp only [runTryBlock, decodeResponseBody, hp, hb, hd]; simp [jsGetProp])

theorem submitStart_messages (s : AppState) :
    (submitStart s).messages = s.messages ++ [userMessage s.input] := rfl

theorem submitFinish_messages (s : AppState) (t : Transport) :
    (submitFinish s t).messages =
      if (runTryBlock s.messages t).2 then (runTryBlock s.messages t).1 ++ [errorMessage]
      else (runTryBlock s.messages t).1 := rfl

/-! ## Claim theorems -/

/-- C3: for every input string that is empty or consists only of
whitespace, submit is a no-op — the state (transcript, in-flight flag and
all) is unchanged and no external request is issued. -/
theorem submit_blank_noop (s : AppState) (t : Transport)
    (h : s.input.data.all isJsWhitespace = true) :
    handleSubmit s t = s ∧ submitRequest s = none := by
  have htrim : jsTrim s.input = "" := jsTrim_of_all_ws s.input h
  exact ⟨by simp [handleSubmit, htrim], by simp [submitRequest, htrim]⟩

/-- Witness for C3 at the concrete whitespace-only input `"   "`. -/
theorem submit_blank_noop_witness :
    handleSubmit (setInput initState "   ") (.error ()) = setInput initState "   " ∧
    submitRequest (setInput initState "   ") = none :=
  submit_blank_noop (setInput initState "   ") (.error ()) (by decide)

/-- C4: on every valid submit the in-flight flag is set at invocation
(`submitStart`), is cleared unconditionally on completion whatever the
outcome (`submitFinish`, covering both the success and the failure path),
and the whole handler is exactly the start phase followed by the finish
phase. -/
theorem submit_loading_lifecycle (s : AppState) (t : Transport)
    (h : jsTrim s.input ≠ "") :
    (submitStart s).isLoading = true ∧
    (∀ (s2 : AppState) (t2 : Transport), (submitFinish s2 t2).isLoading = false) ∧
    handleSubmit s t = submitFinish (submitStart s) t :=
  ⟨rfl, fun _ _ => rfl, by simp [handleSubmit, h]⟩

/-- Witness for C4 at a concrete non-blank input and a failing transport. -/
theorem submit_loading_lifecycle_witness :
    (submitStart (setInput initState "q")).isLoading = true :=
  (submit_loading_lifecycle (setInput initState "q") (.error ()) (by decide)).1

/-- C5 (as stated) is false: sign-out does not preserve the messages
already present.  From a state whose transcript holds the greeting plus
one user message, sign-out yields a transcript that is not an extension of
the previous one. -/
theorem signout_removes_messages :
    ¬ ∃ rest, (handleSignOut { initState with
        messages := [greetingMessage, userMessage "hi"] }).messages =
      [greetingMessage, userMessage "hi"] ++ rest := by
  rintro ⟨rest, h⟩
  have hl := congrArg List.length h
  simp [handleSignOut] at hl

/-- C5 (amended): submit and sign-in only ever append to the transcript
(every prior message survives, unmutated and in place); sign-out instead
resets the transcript to exactly the seeded greeting. -/
theorem transcript_append_discipline :
    (∀ (s : AppState) (t : Transport),
        ∃ rest, (handleSubmit s t).messages = s.messages ++ rest) ∧
    (∀ s : AppState, (handleSignIn s).messages = s.messages) ∧
    (∀ s : AppState, (handleSignOut s).messages = [greetingMessage]) := by
  refine ⟨?_, ?_, fun s => rfl⟩
  · intro s t
    by_cases h : jsTrim s.input = ""
    · exact ⟨[], by simp [handleSubmit, h]⟩
    · obtain ⟨rest, hr⟩ := runTryBlock_append (submitStart s).messages t
      have hh : handleSubmit s t = submitFinish (submitStart s) t := by
        simp [handleSubmit, h]
      by_cases hb : (runTryBlock (submitStart s).messages t).2 = true
      · refine ⟨[userMessage s.input] ++ rest ++ [errorMessage], ?_⟩
        rw [hh, submitFinish_messages, hb, hr, submitStart_messages]
        simp
      · simp only [Bool.not_eq_true] at hb
        refine ⟨[userMessage s.input] ++ rest, ?_⟩
        rw [hh, submitFinish_messages, hb, hr, submitStart_messages]
        simp
  · intro s
    unfold handleSignIn
    split <;> rfl

/-- C6 (as stated) is false: sign-out does not discard the entire session
state.  The pending input text (and the in-flight flag) survive, so the
post-sign-out state differs from a fresh mount whenever input is
non-empty. -/
theorem signout_not_fresh_mount :
    handleSignOut { initState with
        input := "draft", isSignedIn := true,
        credentials := { accessKey := "AK", secretKey := "SK" } } ≠ initState :=
  fun h => absurd (congrArg AppState.input h) (by decide)

/-- C6 (amended): sign-out clears the signed-in flag, blanks both
credential strings and resets the transcript to exactly the seeded
greeting, while leaving the pending input text and the in-flight flag
untouched; the result equals a fresh mount exactly when the input was
empty and no request was in flight. -/
theorem signout_behavior (s : AppState) :
    handleSignOut s = { s with
        isSignedIn := false
        credentials := { accessKey := "", secretKey := "" }
        messages := [greetingMessage] } ∧
    (s.input = "" → s.isLoading = false → handleSignOut s = initState) := by
  refine ⟨rfl, ?_⟩
  obtain ⟨i, m, l, si, c⟩ := s
  intro h1 h2
  have h1' : i = "" := h1
  have h2' : l = false := h2
  subst h1'
  subst h2'
  rfl

/-- Witness for C6 (amended): signing out of the freshly mounted state
reproduces the freshly mounted state. -/
theorem signout_behavior_witness : handleSignOut initState = initState :=
  (signout_behavior initState).2 rfl rfl

/-- C9: in the manual-entry variant, with both credential fields holding
non-empty strings sign-in sets the signed-in flag and the two strings sit
verbatim in session state, everything else unchanged; with either field
empty, sign-in changes nothing. -/
theorem signin_behavior (s : AppState) (ak sk : String) :
    (ak ≠ "" → sk ≠ "" →
      handleSignIn (setAccessKey (setSecretKey s sk) ak) =
        { s with
            credentials := { accessKey := ak, secretKey := sk }
            isSignedIn := true }) ∧
    ((ak = "" ∨ sk = "") →
      handleSignIn (setAccessKey (setSecretKey s sk) ak) =
        setAccessKey (setSecretKey s sk) ak) := by
  constructor
  · intro h1 h2
    have hc : (setAccessKey (setSecretKey s sk) ak).credentials.accessKey ≠ "" ∧
        (setAccessKey (setSecretKey s sk) ak).credentials.secretKey ≠ "" := ⟨h1, h2⟩
    unfold handleSignIn
    rw [if_pos hc]
    rfl
  · intro h
    unfold handleSignIn
    rw [if_neg]
    rintro ⟨ha, hb⟩
    cases h with
    | inl h => exact ha h
    | inr h => exact hb h

/-- Witness for C9 at concrete credentials. -/
theorem signin_behavior_witness :
    handleSignIn (setAccessKey (setSecretKey initState "SECRET") "AKIA") =
      { initState with
          credentials := { accessKey := "AKIA", secretKey := "SECRET" }
          isSignedIn := true } :=
  (signin_behavior initState "AKIA" "SECRET").1 (by decide) (by decide)

/-- C10: the submit handler never touches the signed-in flag or the
stored credentials, on any path — with the state consisting of exactly the
five hooks, this is the full frame beyond transcript, pending input, and
in-flight flag. -/
theorem submit_frame_effect (s : AppState) (t : Transport) :
    (handleSubmit s t).isSignedIn = s.isSignedIn ∧
    (handleSubmit s t).credentials = s.credentials := by
  unfold handleSubmit
  split
  · exact ⟨rfl, rfl⟩
  · exact ⟨rfl, rfl⟩

/-- C1: when the decoded response body is a JSON object with string
fields `sql_query` and `summary`, submit appends — after the user message —
exactly two bot messages, in order: one tagged sql with the `sql_query`
value, then one tagged summary with the `summary` value. -/
theorem submit_success_two_messages (s : AppState) (payload : String) (data : Json)
    (sq sm : String)
    (h : jsTrim s.input ≠ "")
    (hdec : decodeResponseBody payload = .ok data)
    (hsq : jsGetProp data "sql_query" = .ok (some (.str sq)))
    (hsm : jsGetProp data "summary" = .ok (some (.str sm))) :
    (handleSubmit s (.ok payload)).messages =
      s.messages ++ [userMessage s.input,
        { text := some (.str sq), sender := .bot, type := some .sql },
        { text := some (.str sm), sender := .bot, type := some .summary }] := by
  have hh : handleSubmit s (.ok payload) = submitFinish (submitStart s) (.ok payload) := by
    simp [handleSubmit, h]
  have hv := runTryBlock_via_decode (submitStart s).messages payload
  simp only [hdec, hsq, hsm] at hv
  rw [hh, submitFinish_messages, hv]
  simp [submitStart_messages]

def successPayload : String :=
  "\x7b\"body\":\"\x7b\\\"sql_query\\\":\\\"SELECT 1\\\",\\\"summary\\\":\\\"ok\\\"\x7d\"\x7d"

/-- Witness for C1: a concrete envelope whose doubly-encoded body carries
`sql_query` and `summary` strings. -/
theorem submit_success_two_messages_witness :
    (handleSubmit (setInput initState "How many diabetic patients are over 65?")
        (.ok successPayload)).messages =
      initState.messages ++
        [userMessage "How many diabetic patients are over 65?",
         { text := some (.str "SELECT 1"), sender := .bot, type := some .sql },
         { text := some (.str "ok"), sender := .bot, type := some .summary }] :=
  submit_success_two_messages
    (setInput initState "How many diabetic patients are over 65?") successPayload
    (.obj [("sql_query", .str "SELECT 1"), ("summary", .str "ok")]) "SELECT 1" "ok"
    (by decide) rfl rfl rfl

/-- An envelope whose body decodes to the empty JSON object. -/
def missingFieldsPayload : String := "\x7b\"body\":\"\x7b\x7d\"\x7d"

/-- C2 (as stated) is false on the code: a response whose body decodes to
an object *missing* `sql_query` and `summary` does not produce the single
apology message.  Property access on a non-null object merely yields
`undefined`, so the handler appends the two tagged bot messages with
`undefined` text. -/
theorem submit_missing_fields_not_apology :
    (handleSubmit (setInput initState "q") (.ok missingFieldsPayload)).messages =
      [greetingMessage, userMessage "q",
        { text := none, sender := .bot, type := some .sql },
        { text := none, sender := .bot, type := some .summary }] ∧
    (handleSubmit (setInput initState "q") (.ok missingFieldsPayload)).messages ≠
      [greetingMessage, userMessage "q", errorMessage] := by
  refine ⟨rfl, fun hcontra => absurd (congrArg List.length hcontra) (by decide)⟩

/-- C2 (amended): on every submit whose try block throws — thrown
transport error, non-JSON payload, malformed body, or a `null` decoded
body — the transcript gains exactly one untagged bot message with the
fixed apology text and zero success messages (all-or-nothing: the throw
leaves the try block having appended nothing).  Missing
`sql_query`/`summary` fields on a non-null decoded object do not throw;
they instead yield the two tagged messages with `undefined` text. -/
theorem submit_failure_single_apology (s : AppState) (t : Transport)
    (h : jsTrim s.input ≠ "")
    (hfail : (runTryBlock (submitStart s).messages t).2 = true) :
    (handleSubmit s t).messages = s.messages ++ [userMessage s.input, errorMessage] ∧
    (handleSubmit s t).isLoading = false := by
  have hh : handleSubmit s t = submitFinish (submitStart s) t := by
    simp [handleSubmit, h]
  have h1 := runTryBlock_threw (submitStart s).messages t hfail
  constructor
  · rw [hh, submitFinish_messages, hfail, h1, submitStart_messages]
    simp
  · rw [hh]
    rfl

/-- Witness for C2 (amended): a thrown transport error yields exactly the
user message plus the apology. -/
theorem submit_failure_single_apology_witness :
    (handleSubmit (setInput initState "q") (.error ())).messages =
      initState.messages ++ [userMessage "q", errorMessage] ∧
    (handleSubmit (setInput initState "q") (.error ())).isLoading = false :=
  submit_failure_single_apology (setInput initState "q") (.error ()) (by decide) rfl

/-- The well-formedness predicate claimed by C7: text is a non-empty
string, sender is user or bot, the optional tag is sql or summary. -/
def claimMsgOk (m : Message) : Bool :=
  (match m.text with
   | some (.str s) => !(s == "")
   | _ => false) &&
  (match m.sender with
   | .user => true
   | .bot => true) &&
  (match m.type with
   | none => true
   | some .sql => true
   | some .summary => true)

/-- The invariant the code actually maintains: untagged messages (the
greeting, user messages, the apology) carry non-empty string text; tagged
messages carry whatever the backend returned. -/
def msgOk (m : Message) : Bool :=
  match m.type, m.text with
  | some _, _ => true
  | none, some (.str s) => !(s == "")
  | none, _ => false

def emptySqlPayload : String :=
  "\x7b\"body\":\"\x7b\\\"sql_query\\\":\\\"\\\",\\\"summary\\\":\\\"x\\\"\x7d\"\x7d"

/-- C7 (as stated) is false: a reachable state (one submit answered with a
body whose `sql_query` is the empty string) contains a message with empty
text. -/
theorem reachable_empty_text_message :
    Reachable (handleSubmit (setInput initState "q") (.ok emptySqlPayload)) ∧
    (handleSubmit (setInput initState "q") (.ok emptySqlPayload)).messages.all
      claimMsgOk = false :=
  ⟨Reachable.submit (.ok emptySqlPayload) (Reachable.input "q" Reachable.init), rfl⟩

/-- The try block preserves the code-level message invariant: everything
it appends is tagged. -/
theorem runTryBlock_all_msgOk (msgs : List Message) (t : Transport)
    (h : msgs.all msgOk = true) : ((runTryBlock msgs t).1).all msgOk = true := by
  cases t with
  | error e => simpa [runTryBlock] using h
  | ok payload =>
    cases hp : jsonParse payload with
    | error e => simpa [runTryBlock, hp] using h
    | ok parsedResponse =>
      cases hb : jsGetProp parsedResponse "body" with
      | error e => simpa [runTryBlock, hp, hb] using h
      | ok bodyVal =>
        cases hd : jsonParse (jsToStringOpt (payload.length + 1) bodyVal) with
        | error e => simpa [runTryBlock, hp, hb, hd] using h
        | ok data =>
          cases hs : jsGetProp data "sql_query" with
          | error e => simpa [runTryBlock, hp, hb, hd, hs] using h
          | ok sq =>
            cases hm : jsGetProp data "summary" with
            | error e => simp [runTryBlock, hp, hb, hd, hs, hm, List.all_append, h, msgOk]
            | ok sm => simp [runTryBlock, hp, hb, hd, hs, hm, List.all_append, h, msgOk]

/-- C7 (amended): in every reachable state each message has sender user or
bot and an optional tag drawn from sql/summary (by construction), and
every untagged message carries non-empty string text; tagged messages
carry the backend-supplied value, which may be empty or `undefined`. -/
theorem reachable_messages_wf (s : AppState) (h : Reachable s) :
    s.messages.all msgOk = true := by
  induction h with
  | init => rfl
  | input v _ ih => exact ih
  | accessKey v _ ih => exact ih
  | secretKey v _ ih => exact ih
  | signIn _ ih =>
    unfold handleSignIn
    split
    · exact ih
    · exact ih
  | signOut _ ih => rfl
  | @submit s' t _ ih =>
    by_cases htrim : jsTrim s'.input = ""
    · simpa [handleSubmit, htrim] using ih
    · have hinput : s'.input ≠ "" := ne_empty_of_trim_ne_empty s'.input htrim
      have hb1 : (s'.input == "") = false := beq_eq_false_iff_ne.mpr hinput
      have h1 : (submitStart s').messages.all msgOk = true := by
        rw [submitStart_messages, List.all_append, ih]
        simp [msgOk, userMessage, hb1]
      have h2 := runTryBlock_all_msgOk (submitStart s').messages t h1
      have hh : handleSubmit s' t = submitFinish (submitStart s') t := by
        simp [handleSubmit, htrim]
      rw [hh, submitFinish_messages]
      by_cases hthrew : (runTryBlock (submitStart s').messages t).2 = true
      · have herr : [errorMessage].all msgOk = true := rfl
        simp [hthrew, List.all_append, h2, herr]
      · simp only [Bool.not_eq_true] at hthrew
        simpa [hthrew] using h2

/-- Witness for C7 (amended) at the freshly mounted state. -/
theorem reachable_messages_wf_witness : initState.messages.all msgOk = true :=
  reachable_messages_wf initState Reachable.init

/-- C8: a valid submit issues the invoke command for function `IST2SQL`
whose payload is the JSON serialization of `{question: <the input text>}`,
and the response path of the try block factors through the two-pass decode
(outer `JSON.parse` of the decoded transport payload, then `JSON.parse` of
its `body` field). -/
theorem request_and_decode_shape (s : AppState) (h : jsTrim s.input ≠ "") :
    submitRequest s =
      some { functionName := "IST2SQL", payload := serializeQuestion s.input } ∧
    (∀ (payload : String) (msgs : List Message),
      runTryBlock msgs (.ok payload) =
        match decodeResponseBody payload with
        | .error _ => (msgs, true)
        | .ok data =>
          match jsGetProp data "sql_query", jsGetProp data "summary" with
          | .ok sq, .ok sm =>
            (msgs ++ [{ text := sq, sender := .bot, type := some .sql },
                      { text := sm, sender := .bot, type := some .summary }], false)
          | _, _ => (msgs, true)) :=
  ⟨by simp [submitRequest, h], fun payload msgs => runTryBlock_via_decode msgs payload⟩

/-- Witness for C8: the serialized request for a concrete question. -/
theorem request_and_decode_shape_witness :
    submitRequest (setInput initState "How many patients?") =
      some { functionName := "IST2SQL",
             payload := "\x7b\"question\":\"How many patients?\"\x7d" } :=
  (request_and_decode_shape (setInput initState "How many patients?") (by decide)).1

end OmopChat
